import Mathlib

/-!
# Verification of the price-checker core

Shallow embedding of the product availability/price checker:

* `src/scrapers/ui_store.py` and `src/scrapers/amazon.py` — the extraction
  pipeline (JSON-LD structured-data tier and DOM/meta fallback tier);
* `src/database.py` — the persisted `Product` / `CheckHistory` records and
  the `update_product_status` / `add_product` operations;
* `src/checker.py` — the two check cycles `check_all_products`
  (availability cadence) and `check_all_prices` (price cadence).

Python dynamic values arising from `json.loads` are modelled by the `Json`
inductive; Python attribute/type errors raised by calling `.get` or
`.lower()` on a non-dict / non-string are modelled by `Except PyError`.
Python floats that carry prices are modelled as exact rationals (only
order comparisons and equality are performed on them in the source).
Timestamps are abstract `Nat` values.
-/

namespace PriceChecker

/-! ## Python string primitives used by the scrapers -/

/-- Python `str.lower()` restricted to ASCII (all availability tokens and
the strings compared in the source are ASCII). -/
def pyLower (s : String) : String :=
  String.mk (s.data.map Char.toLower)

/-- Test that `needle` is an initial segment of `hay`. -/
def startsWithChars : List Char → List Char → Bool
  | [], _ => true
  | _ :: _, [] => false
  | a :: as, b :: bs => a == b && startsWithChars as bs

/-- Test that `needle` occurs contiguously inside `hay`
(Python `needle in hay` on strings). -/
def containsChars (needle : List Char) : List Char → Bool
  | [] => needle.isEmpty
  | b :: bs => startsWithChars needle (b :: bs) || containsChars needle bs

/-- Python `needle in hay` for strings. -/
def strIn (needle hay : String) : Bool :=
  containsChars needle.data hay.data

/-! ## Availability-token normalization

`UIStoreScraper._is_available` (src/scrapers/ui_store.py) loops over the
token list returning `True` on the first substring hit;
`AmazonScraper._is_available` (src/scrapers/amazon.py) uses `any` over the
identical list.  Both are the function below. -/

/-- The fixed in-stock token list from `_is_available` in both scrapers. -/
def in_stock_values : List String :=
  ["instock", "in_stock", "instoreonly", "limitedavailability", "onlineonly", "presale"]

/-- Embedding of `_is_available(availability)`: lowercase, then test each
token for substring membership. -/
def is_available (availability : String) : Bool :=
  in_stock_values.any (fun v => strIn v (pyLower availability))

/-! ## Python JSON values and dynamic attribute errors -/

/-- Result of Python `json.loads`: a dynamic JSON value.  Objects keep an
association list of fields; `json.loads` produces unique keys, so lookup
by first match is the dict lookup. -/
inductive Json where
  | null
  | str (s : String)
  | num (q : ℚ)
  | bool (b : Bool)
  | arr (elems : List Json)
  | obj (fields : List (String × Json))
deriving Repr

/-- Python runtime errors that the scraper code can raise (and that the
structured-data tier does **not** catch): `AttributeError` from calling
`.get`/`.lower()` on a value without that attribute, `TypeError` from an
unsupported operation. -/
inductive PyError where
  | attributeError
  | typeError
  | keyError
  | indexError
deriving Repr, DecidableEq

/-- Field lookup in a JSON object (Python `dict` access used via `.get`). -/
def Json.lookupField (fields : List (String × Json)) (key : String) : Option Json :=
  match fields with
  | [] => none
  | (k, v) :: rest => if k = key then some v else Json.lookupField rest key

/-- Python `value.get(key, default)`: defined for dicts, raises
`AttributeError` on every other value (including lists and strings). -/
def Json.get (v : Json) (key : String) (default : Json) : Except PyError Json :=
  match v with
  | .obj fields =>
      match Json.lookupField fields key with
      | some w => pure w
      | none => pure default
  | _ => throw .attributeError

/-- Python `value.get(key)` with the implicit `None` default. -/
def Json.getNone (v : Json) (key : String) : Except PyError Json :=
  Json.get v key .null

/-- Python truthiness of a JSON value (`if x:`). -/
def Json.truthy : Json → Bool
  | .null => false
  | .str s => decide (s ≠ "")
  | .num q => decide (q ≠ 0)
  | .bool b => b
  | .arr xs => !xs.isEmpty
  | .obj fs => !fs.isEmpty

/-- Python `availability.lower()` where `availability` came out of a JSON
field: only strings have `.lower()`, anything else raises
`AttributeError`. -/
def Json.lowerStr : Json → Except PyError String
  | .str s => pure (pyLower s)
  | _ => throw .attributeError

/-- Python `isinstance(v, list)`. -/
def Json.isList : Json → Bool
  | .arr _ => true
  | _ => false

/-- Python `isinstance(v, dict)`. -/
def Json.isDict : Json → Bool
  | .obj _ => true
  | _ => false

/-- Python `float(v)` applied to a JSON value, as in
`price = float(price_val)`: numbers pass through, numeric-looking strings
parse, everything else raises (`ValueError`/`TypeError`, both caught at
the call sites).  The scrapers catch both, so the embedding only needs
"some value" vs "raises": `none` stands for the caught exception. -/
def pyFloatOfJson : Json → Option ℚ
  | .num q => some q
  | .str s => pyFloatOfDigits s.data
  | .bool b => some (if b then 1 else 0)
  | _ => none
where
  /-- Python `float(s)` for a string: accepts `digits`, `digits.digits`,
  `digits.` and `.digits` (the only shapes produced by the price regex or
  present in structured data blocks the claims exercise); everything else
  is a `ValueError`, i.e. `none`. -/
  pyFloatOfDigits (cs : List Char) : Option ℚ :=
    let isDigit := fun c : Char => decide ('0' ≤ c) && decide (c ≤ '9')
    let toNat := fun ds : List Char => ds.foldl (fun n c => n * 10 + (c.toNat - 48)) (0 : Nat)
    if cs = [] then none
    else if cs.all isDigit then some (mkRat (toNat cs) 1)
    else
      let intPart := cs.takeWhile isDigit
      let rest := cs.dropWhile isDigit
      match rest with
      | '.' :: fracPart =>
          if fracPart.all isDigit && (intPart ≠ [] ∨ fracPart ≠ []) then
            some (mkRat (toNat intPart * 10 ^ fracPart.length + toNat fracPart)
              (10 ^ fracPart.length))
          else none
      | _ => none

/-- Python list/str/dict iteration (`for x in v`): lists yield elements,
strings yield one-character strings, dicts yield their keys; every other
value raises `TypeError`. -/
def Json.iterate : Json → Except PyError (List Json)
  | .arr xs => pure xs
  | .str s => pure (s.data.map (fun c => Json.str (String.mk [c])))
  | .obj fields => pure (fields.map (fun kv => Json.str kv.1))
  | _ => throw .typeError

/-- Python `v[0]` on JSON values: first list element / first character;
`KeyError` on dicts, `IndexError` on empty sequences, `TypeError`
otherwise. -/
def Json.index0 : Json → Except PyError Json
  | .arr [] => throw .indexError
  | .arr (x :: _) => pure x
  | .str s =>
      match s.data with
      | [] => throw .indexError
      | c :: _ => pure (Json.str (String.mk [c]))
  | .obj _ => throw .keyError
  | _ => throw .typeError

/-- Python `v[key]` (dict subscript by a string key). -/
def Json.subscript (v : Json) (key : String) : Except PyError Json :=
  match v with
  | .obj fields =>
      match Json.lookupField fields key with
      | some w => pure w
      | none => throw .keyError
  | _ => throw .typeError

/-- Embedding of `_is_available` applied to a value freshly read from a
JSON field: the
body starts with `availability.lower()`, so a non-string argument raises
`AttributeError`. -/
def is_available_py (availability : Json) : Except PyError Bool :=
  match availability with
  | .str s => pure (is_available s)
  | _ => throw .attributeError

/-! ## Extraction input model

A fetched document, as far as the two scrapers read it.  `ldScripts` holds
one entry per `<script type="application/ld+json">` tag: `some v` when
`json.loads(script.string)` yields the value `v`, `none` when it raises
`json.JSONDecodeError` (unparsable text) or `TypeError` (missing string) —
both caught by `_extract_json_ld`'s `except` clause.  The remaining fields
are the DOM features the two `_parse_html` fallbacks query. -/
structure Page where
  /-- parsed `application/ld+json` script contents, in document order -/
  ldScripts : List (Option Json)
  /-- stripped text of the first `h1`, when one exists (ui_store) -/
  h1Text : Option String
  /-- text of the first element with a class matching `/price/i` (ui_store) -/
  priceClassText : Option String
  /-- ui_store add-to-cart control: `some d` when a button/anchor with
  "add to cart" text exists, `d` = truthiness of its `disabled` attribute -/
  addToCart : Option Bool
  /-- ui_store: some text node matches `/out of stock|sold out|unavailable/i` -/
  outOfStockText : Bool
  /-- stripped text of `#productTitle`, when present (amazon) -/
  productTitleText : Option String
  /-- text of the first `.a-price .a-offscreen` element (amazon) -/
  offscreenPriceText : Option String
  /-- stripped text of the `#availability` element (amazon) -/
  availabilityText : Option String
  /-- an `#add-to-cart-button` element exists (amazon) -/
  addToCartButtonById : Bool

/-- The extraction result dataclass `ProductInfo`
(src/scrapers/base.py).  `name` and `currency` are dynamic values in
Python (structured data can put any JSON value there); `price` is a float
or `None`. -/
structure ProductInfo where
  name : Json
  price : Option ℚ
  available : Bool
  url : String
  currency : Json
deriving Repr

/-! ## JSON-LD extraction tier (`_extract_json_ld`)

The `try` around `json.loads` catches only `JSONDecodeError` and
`TypeError`; the `.get("@type")` calls inside it can still raise
`AttributeError` (on a parsed top-level non-dict, or a list holding
non-dict items), which propagates. -/

/-- Python `x in ("Product", "ProductGroup")` on a `.get("@type")` result. -/
def typeMatchesUI (t : Json) : Bool :=
  match t with
  | .str s => s = "Product" || s = "ProductGroup"
  | _ => false

/-- Python `x == "Product"` for the amazon variant. -/
def typeMatchesAmazon (t : Json) : Bool :=
  match t with
  | .str s => s = "Product"
  | _ => false

/-- The inner `for item in data:` loop of `_extract_json_ld` over a parsed
top-level list: return the first item whose `@type` matches. -/
def firstTypedItem (typeOk : Json → Bool) : List Json → Except PyError (Option Json)
  | [] => pure none
  | item :: rest => do
      let t ← item.getNone "@type"
      if typeOk t then pure (some item) else firstTypedItem typeOk rest

/-- Embedding of `_extract_json_ld(soup)` generic over the `@type`
predicate (ui_store
accepts `Product`/`ProductGroup`, amazon only `Product`). -/
def extract_json_ld (typeOk : Json → Bool) : List (Option Json) → Except PyError (Option Json)
  | [] => pure none
  | none :: rest => extract_json_ld typeOk rest
  | some data :: rest =>
      match data with
      | .arr items => do
          match ← firstTypedItem typeOk items with
          | some item => pure (some item)
          | none => extract_json_ld typeOk rest
      | .obj _ => do
          let t ← data.getNone "@type"
          if typeOk t then pure (some data) else extract_json_ld typeOk rest
      | _ =>
          -- `data.get("@type")` on a parsed non-dict, non-list value
          throw .attributeError

/-- Test that a parsed top-level dict carries no matching product type:
its selection test in `_extract_json_ld` runs without raising and does not
return it. -/
def dictNoMatch (typeOk : Json → Bool) : Json → Bool
  | Json.obj fields => !typeOk ((Json.lookupField fields "@type").getD Json.null)
  | _ => false

/-- Test that one ld+json script is harmless to `_extract_json_ld` and
selects nothing: it is unparsable / has no string content (caught), or
parses to a dict with no matching type, or to a list of such dicts.  A
parseable script outside this class — a top-level scalar, or a list
holding a non-dict entry — raises `AttributeError` inside the extraction
tier itself. -/
def scriptYieldsNoBlock (typeOk : Json → Bool) : Option Json → Bool
  | none => true
  | some (Json.arr items) => items.all (dictNoMatch typeOk)
  | some data => dictNoMatch typeOk data

/-! ## JSON-LD parsing tier -/

/-- The repeated idiom `x = x[0] if x else {}` guarded by
`isinstance(x, list)`: unwrap a list to its first element (or `{}` when
empty); leave any non-list value unchanged. -/
def unwrapFirst (v : Json) : Json :=
  match v with
  | .arr (x :: _) => x
  | .arr [] => .obj []
  | other => other

/-- The variant-selection loop of `UIStoreScraper._parse_json_ld`: walk
`hasVariant`, return the first variant whose (unwrapped) offers report an
in-stock availability. -/
def uiChooseVariant : List Json → Except PyError (Option Json)
  | [] => pure none
  | variant :: rest => do
      let vOffersRaw ← variant.get "offers" (.obj [])
      let vOffers := if vOffersRaw.isList then unwrapFirst vOffersRaw else vOffersRaw
      let avail ← is_available_py (← vOffers.get "availability" (.str ""))
      if avail then pure (some vOffers) else uiChooseVariant rest

/-- The per-variant availability expression inside the `any(...)` at the
end of `UIStoreScraper._parse_json_ld`:
`(v.get("offers") if isinstance(v.get("offers"), dict) else
  (v["offers"][0] if v.get("offers") else {})).get("availability", "")`. -/
def uiVariantAvailable (v : Json) : Except PyError Bool := do
  let o ← v.getNone "offers"
  let chosen ←
    if o.isDict then pure o
    else if o.truthy then do (← v.subscript "offers").index0
    else pure (Json.obj [])
  is_available_py (← chosen.get "availability" (.str ""))

/-- Python `any(f(v) for v in vs)` where `f` can raise. -/
def anyPy (f : Json → Except PyError Bool) : List Json → Except PyError Bool
  | [] => pure false
  | v :: rest => do
      if (← f v) then pure true else anyPy f rest

/-- Embedding of `UIStoreScraper._parse_json_ld(data, url)`. -/
def uiParseJsonLd (data : Json) (url : String) : Except PyError ProductInfo := do
  let name ← data.get "name" (.str "Unknown Product")
  let offers0 ← data.get "offers" (.obj [])
  let variants ← data.get "hasVariant" (.arr [])
  let offers1 ←
    if !offers0.truthy && variants.truthy then do
      let chosen ← uiChooseVariant (← variants.iterate)
      let chosen2 ←
        match chosen with
        | some c => pure (some c)
        | none =>
            if variants.truthy then do
              let c ← (← variants.index0).get "offers" (.obj [])
              pure (some (if c.isList then unwrapFirst c else c))
            else pure none
      pure (match chosen2 with
        | some c => if c.truthy then c else Json.obj []
        | none => Json.obj [])
    else pure offers0
  let offers := if offers1.isList then unwrapFirst offers1 else offers1
  let priceVal0 ← offers.getNone "price"
  let priceVal ←
    if !priceVal0.truthy then do
      let spec0 ← offers.get "priceSpecification" (.obj [])
      let spec := if spec0.isList then unwrapFirst spec0 else spec0
      spec.getNone "price"
    else pure priceVal0
  let price : Option ℚ :=
    match priceVal with
    | .null => none
    | v => pyFloatOfJson v
  let cur0 ← offers.getNone "priceCurrency"
  let cur1 ←
    if !cur0.truthy then do
      let spec0 ← offers.get "priceSpecification" (.obj [])
      let spec := if spec0.isList then unwrapFirst spec0 else spec0
      spec.get "priceCurrency" (.str "USD")
    else pure cur0
  let currency := if cur1.truthy then cur1 else Json.str "USD"
  let available ←
    if variants.truthy then
      anyPy uiVariantAvailable (← variants.iterate)
    else
      is_available_py (← offers.get "availability" (.str ""))
  pure { name := name, price := price, available := available, url := url, currency := currency }

/-- Embedding of `AmazonScraper._parse_json_ld(data, url)`. -/
def amazonParseJsonLd (data : Json) (url : String) : Except PyError ProductInfo := do
  let name ← data.get "name" (.str "Unknown Product")
  let offers0 ← data.get "offers" (.obj [])
  let offers := if offers0.isList then unwrapFirst offers0 else offers0
  let priceVal ← offers.getNone "price"
  let price : Option ℚ :=
    if priceVal.truthy then pyFloatOfJson priceVal else none
  let currency ← offers.get "priceCurrency" (.str "USD")
  let available ← is_available_py (← offers.get "availability" (.str ""))
  pure { name := name, price := price, available := available, url := url, currency := currency }

/-! ## DOM fallback tier (`_parse_html`) -/

/-- Leftmost match of the price pattern `[\d,]+\.?\d*` (shared by both
`_parse_html` fallbacks): at the first digit-or-comma character, greedily
take the digit/comma run, an optional dot, then a digit run. -/
def priceRegexSearch : List Char → Option (List Char)
  | [] => none
  | c :: rest =>
      let isDigitCh := fun ch : Char => decide ('0' ≤ ch) && decide (ch ≤ '9')
      let isDigitCommaCh := fun ch : Char => isDigitCh ch || ch == ','
      if isDigitCommaCh c then
        let run1 := (c :: rest).takeWhile isDigitCommaCh
        let rest1 := (c :: rest).dropWhile isDigitCommaCh
        match rest1 with
        | '.' :: rest2 => some (run1 ++ ['.'] ++ rest2.takeWhile isDigitCh)
        | _ => some run1
      else priceRegexSearch rest

/-- Python `float(match.group().replace(",", ""))` with `ValueError` caught:
`none` models the caught exception (price stays `None`). -/
def parsePriceText (t : String) : Option ℚ :=
  match priceRegexSearch t.data with
  | none => none
  | some cs => pyFloatOfJson.pyFloatOfDigits (cs.filter (fun ch => !(ch == ',')))

/-- Embedding of `UIStoreScraper._parse_html(soup, url)`. -/
def uiParseHtml (page : Page) (url : String) : ProductInfo :=
  let name : Json :=
    match page.h1Text with
    | none => .str "Unknown Product"
    | some t => .str t
  let price : Option ℚ :=
    match page.priceClassText with
    | none => none
    | some t => parsePriceText t
  let availFromCart : Bool :=
    match page.addToCart with
    | some disabled => !disabled
    | none => false
  let available := if page.outOfStockText then false else availFromCart
  { name := name, price := price, available := available, url := url, currency := .str "USD" }

/-- Embedding of `AmazonScraper._parse_html(soup, url)`. -/
def amazonParseHtml (page : Page) (url : String) : ProductInfo :=
  let name : Json :=
    match page.productTitleText with
    | none => .str "Unknown Product"
    | some t => .str t
  let price : Option ℚ :=
    match page.offscreenPriceText with
    | none => none
    | some t => parsePriceText t
  let available : Bool :=
    match page.availabilityText with
    | some t =>
        let l := pyLower t
        if strIn "in stock" l then true
        else if strIn "unavailable" l || strIn "out of stock" l then false
        else false
    | none => page.addToCartButtonById
  { name := name, price := price, available := available, url := url, currency := .str "USD" }

/-- Embedding of `UIStoreScraper.scrape` after the fetch: JSON-LD tier
first, DOM
fallback otherwise.  (A dict returned by `_extract_json_ld` always holds
an `@type` key, so the truthiness test `if json_ld:` in the source coincides
with the `some`/`none` split.) -/
def uiScrapeDoc (page : Page) (url : String) : Except PyError ProductInfo :=
  match extract_json_ld typeMatchesUI page.ldScripts with
  | .ok (some data) => uiParseJsonLd data url
  | .ok none => .ok (uiParseHtml page url)
  | .error e => .error e

/-- Embedding of `AmazonScraper.scrape` after the fetch. -/
def amazonScrapeDoc (page : Page) (url : String) : Except PyError ProductInfo :=
  match extract_json_ld typeMatchesAmazon page.ldScripts with
  | .ok (some data) => amazonParseJsonLd data url
  | .ok none => .ok (amazonParseHtml page url)
  | .error e => .error e

/-! ## Persistence model (src/database.py)

`Product` and `CheckHistory` mirror the dataclasses.  The store state is
the ordered `products` table (insertion order, `nextId` playing
`AUTOINCREMENT`) and the append-only `check_history` table.  `name` holds
a dynamic value (`None`, a string, or whatever extraction produced). -/

structure Product where
  id : Nat
  url : String
  name : Option Json
  last_status : Option String
  last_price : Option ℚ
  last_checked : Option Nat
  check_availability : Bool
  check_price : Bool
deriving Repr

structure CheckHistory where
  product_id : Nat
  status : String
  price : Option ℚ
  checked_at : Nat
deriving Repr

structure DBState where
  products : List Product
  history : List CheckHistory
  nextId : Nat
deriving Repr

/-- Python truthiness of an optional dynamic value
(`if name:` / `if not product.name`). -/
def optTruthy : Option Json → Bool
  | none => false
  | some j => j.truthy

/-- Embedding of `Database.add_product(url, name)`: select by url, insert
when absent
with all status fields empty and both check flags at their default
(`DEFAULT 1`). -/
def add_product (db : DBState) (url : String) (name : Option Json) : DBState :=
  if db.products.any (fun p => p.url = url) then db
  else
    { db with
      products := db.products ++
        [{ id := db.nextId, url := url, name := name,
           last_status := none, last_price := none, last_checked := none,
           check_availability := true, check_price := true }],
      nextId := db.nextId + 1 }

/-- The row transformation of `update_product_status` on the matching
product: the `SET` clause with the name (the `if name:` branch in the
source writes the name column only when the value is truthy). -/
def rowUpdate (status : String) (price : Option ℚ) (name : Option Json)
    (now : Nat) (p : Product) : Product :=
  if optTruthy name then
    { p with last_status := some status, last_price := price,
             last_checked := some now, name := name }
  else
    { p with last_status := some status, last_price := price,
             last_checked := some now }

/-- Embedding of `Database.update_product_status(product_id, status,
price, name)`:
update the matching row (writing `name` only when it is truthy) and append
one history row, same timestamp. -/
def update_product_status (db : DBState) (product_id : Nat) (status : String)
    (price : Option ℚ) (name : Option Json) (now : Nat) : DBState :=
  { db with
    products := db.products.map (fun p =>
      if p.id = product_id then rowUpdate status price name now p else p),
    history := db.history ++
      [{ product_id := product_id, status := status, price := price, checked_at := now }] }

/-! ## Check cycles (src/checker.py)

`check_product` resolves a scraper and catches every scraping exception,
returning `None` on no-handler / transport error / a raising extraction;
the cycles below therefore consume an oracle
`scrape : String → Option ProductInfo`.  A store write can raise
(`PersistenceError`); the oracle `persistFails` says for which product ids
`update_product_status` raises — `check_all_products` /
`check_all_prices` do **not** catch that, so the cycle stops there
(`aborted`).  `notify_available` returns a success Boolean (oracle
`notifyOk`) that the availability cycle ignores.  The price cycle has no
working notifier at all: `PushoverNotifier` (src/notifier.py) defines only
`notify_available` and `send_test`, so the call
`self.notifier.notify_price_drop(product, old_price, new_price)` at
checker.py:131 raises `AttributeError` on the attribute lookup itself —
nothing is dispatched and the rest of the price batch aborts (the store
write just before it is already committed).  Observable actions are
recorded as an `Event` trace in program order; `Event.notifyPriceDrop` is
the price-drop event the spec describes, which the program can never
produce. -/

inductive Event where
  | check (url : String)
  | persist (product_id : Nat) (status : String) (price : Option ℚ) (name : Option Json)
  | notifyAvailable (info : ProductInfo) (ok : Bool)
  | notifyPriceDrop (product_id : Nat) (oldPrice newPrice : ℚ)
deriving Repr

structure CycleResult where
  db : DBState
  events : List Event
  aborted : Option Nat
deriving Repr

/-- Ways the price cycle can stop early: an uncaught store error, or the
`AttributeError` raised by looking up the undefined
`notifier.notify_price_drop` on a detected price drop. -/
inductive PriceAbort where
  | persistError (product_id : Nat)
  | notifyPriceDropMissing (product_id : Nat) (oldPrice newPrice : ℚ)
deriving Repr

structure PriceCycleResult where
  db : DBState
  events : List Event
  aborted : Option PriceAbort
deriving Repr

/-- The local `current_status = "available" if info.available else
"unavailable"`. -/
def statusOf (info : ProductInfo) : String :=
  if info.available then "available" else "unavailable"

/-- The `name` keyword argument of both `update_product_status` calls:
`info.name if not product.name else None`. -/
def nameArgOf (p : Product) (info : ProductInfo) : Option Json :=
  if optTruthy p.name then none else some info.name

/-- The events contributed by one product in the availability loop body of
`check_all_products` (extraction attempt, then store write, then the
edge-triggered notification). -/
def stepAvailEvents (scrape : String → Option ProductInfo)
    (notifyOk : ProductInfo → Bool) (p : Product) : List Event :=
  match scrape p.url with
  | none => [.check p.url]
  | some info =>
      [.check p.url, .persist p.id (statusOf info) info.price (nameArgOf p info)] ++
        (if statusOf info = "available" ∧ p.last_status ≠ some "available" then
          [.notifyAvailable info (notifyOk info)] else [])

/-- The `for product in products:` loop of `check_all_products` over the
snapshot list, threading the store. -/
def runAvail (scrape : String → Option ProductInfo) (persistFails : Nat → Bool)
    (notifyOk : ProductInfo → Bool) (now : Nat) :
    List Product → DBState → CycleResult
  | [], db => { db := db, events := [], aborted := none }
  | p :: rest, db =>
      match scrape p.url with
      | none =>
          let r := runAvail scrape persistFails notifyOk now rest db
          { r with events := .check p.url :: r.events }
      | some info =>
          if persistFails p.id then
            { db := db, events := [.check p.url], aborted := some p.id }
          else
            let db1 := update_product_status db p.id (statusOf info) info.price
              (nameArgOf p info) now
            let notifyEvs :=
              if statusOf info = "available" ∧ p.last_status ≠ some "available" then
                [Event.notifyAvailable info (notifyOk info)] else []
            let r := runAvail scrape persistFails notifyOk now rest db1
            { r with events :=
                [Event.check p.url,
                 Event.persist p.id (statusOf info) info.price (nameArgOf p info)] ++
                  notifyEvs ++ r.events }

/-- The seeding loop at the top of `check_all_products`: every configured
product is upserted before the snapshot is taken. -/
def seedConfig (config : List (String × Option Json)) (db : DBState) : DBState :=
  config.foldl (fun d c => add_product d c.1 c.2) db

/-- Embedding of `ProductChecker.check_all_products`: seed the configured
products,
snapshot `get_all_products()`, then run the availability loop.  (The
`if not products: return` early exit coincides with the loop on `[]`.) -/
def check_all_products (config : List (String × Option Json))
    (scrape : String → Option ProductInfo) (persistFails : Nat → Bool)
    (notifyOk : ProductInfo → Bool) (db : DBState) (now : Nat) : CycleResult :=
  let db1 := seedConfig config db
  runAvail scrape persistFails notifyOk now db1.products db1

/-- The `for product in products:` loop of `check_all_prices`.  A product
with no persisted baseline is skipped before any fetch; a scrape without a
price skips the write.  When `new_price < old_price`, the source logs and
then evaluates `self.notifier.notify_price_drop(...)`: the attribute does
not exist on `PushoverNotifier`, so an `AttributeError` is raised right
after the (already committed) store write and the loop ends there — no
price-drop event is ever dispatched. -/
def runPrice (scrape : String → Option ProductInfo) (persistFails : Nat → Bool)
    (now : Nat) : List Product → DBState → PriceCycleResult
  | [], db => { db := db, events := [], aborted := none }
  | p :: rest, db =>
      match p.last_price with
      | none => runPrice scrape persistFails now rest db
      | some oldP =>
          match scrape p.url with
          | none =>
              let r := runPrice scrape persistFails now rest db
              { r with events := .check p.url :: r.events }
          | some info =>
              match info.price with
              | none =>
                  let r := runPrice scrape persistFails now rest db
                  { r with events := .check p.url :: r.events }
              | some newP =>
                  if persistFails p.id then
                    { db := db, events := [.check p.url],
                      aborted := some (.persistError p.id) }
                  else
                    let db1 := update_product_status db p.id (statusOf info) (some newP)
                      (nameArgOf p info) now
                    if newP < oldP then
                      { db := db1,
                        events := [Event.check p.url,
                          Event.persist p.id (statusOf info) (some newP) (nameArgOf p info)],
                        aborted := some (.notifyPriceDropMissing p.id oldP newP) }
                    else
                      let r := runPrice scrape persistFails now rest db1
                      { r with events :=
                          [Event.check p.url,
                           Event.persist p.id (statusOf info) (some newP) (nameArgOf p info)] ++
                            r.events }

/-- Embedding of `ProductChecker.check_all_prices`: snapshot the store (no
seeding here), then run the price loop. -/
def check_all_prices (scrape : String → Option ProductInfo)
    (persistFails : Nat → Bool) (db : DBState) (now : Nat) : PriceCycleResult :=
  runPrice scrape persistFails now db.products db

/-- Recognizer for availability-notification events. -/
def isAvailabilityEvent : Event → Bool
  | .notifyAvailable _ _ => true
  | _ => false

/-- Recognizer for price-drop-notification events. -/
def isPriceDropEvent : Event → Bool
  | .notifyPriceDrop _ _ _ => true
  | _ => false

/-! ## Helper lemmas about the cycles -/

/-- When no store write fails, the trace of the availability cycle is the
concatenation of the per-product traces taken from the snapshot. -/
lemma runAvail_events_decomp (scrape : String → Option ProductInfo)
    (persistFails : Nat → Bool) (notifyOk : ProductInfo → Bool) (now : Nat)
    (hpf : ∀ i, persistFails i = false) :
    ∀ (ps : List Product) (db : DBState),
      (runAvail scrape persistFails notifyOk now ps db).events
        = ps.flatMap (stepAvailEvents scrape notifyOk) := by
  intro ps
  induction ps with
  | nil => intro db; simp [runAvail]
  | cons p rest ih =>
      intro db
      cases hs : scrape p.url with
      | none => simp [runAvail, hs, stepAvailEvents, ih]
      | some info => simp [runAvail, hs, stepAvailEvents, hpf p.id, ih]

/-- The final store of the availability cycle does not depend on the
success values returned by the notifier. -/
lemma runAvail_db_notify_independent (scrape : String → Option ProductInfo)
    (persistFails : Nat → Bool) (ok1 ok2 : ProductInfo → Bool) (now : Nat) :
    ∀ (ps : List Product) (db : DBState),
      (runAvail scrape persistFails ok1 now ps db).db
        = (runAvail scrape persistFails ok2 now ps db).db := by
  intro ps
  induction ps with
  | nil => intro db; rfl
  | cons p rest ih =>
      intro db
      cases hs : scrape p.url with
      | none => simp [runAvail, hs, ih]
      | some info =>
          by_cases hp : persistFails p.id <;> simp [runAvail, hs, hp, ih]

/-- The price cycle never emits an availability-notification event. -/
lemma runPrice_no_availability_events (scrape : String → Option ProductInfo)
    (persistFails : Nat → Bool) (now : Nat) :
    ∀ (ps : List Product) (db : DBState),
      ∀ e ∈ (runPrice scrape persistFails now ps db).events,
        isAvailabilityEvent e = false := by
  intro ps
  induction ps with
  | nil => intro db e he; simp [runPrice] at he
  | cons p rest ih =>
      intro db e he
      cases hlp : p.last_price with
      | none =>
          simp only [runPrice, hlp] at he
          exact ih db e he
      | some oldP =>
          cases hs : scrape p.url with
          | none =>
              simp only [runPrice, hlp, hs, List.mem_cons] at he
              rcases he with he | he
              · subst he; rfl
              · exact ih db e he
          | some info =>
              cases hip : info.price with
              | none =>
                  simp only [runPrice, hlp, hs, hip, List.mem_cons] at he
                  rcases he with he | he
                  · subst he; rfl
                  · exact ih db e he
              | some newP =>
                  by_cases hp : persistFails p.id
                  · simp only [runPrice, hlp, hs, hip, hp, if_true, List.mem_singleton] at he
                    subst he; rfl
                  · by_cases hlt : newP < oldP
                    · simp only [runPrice, hlp, hs, hip, hp, hlt, if_true, if_false,
                        Bool.false_eq_true, List.mem_cons, List.mem_singleton,
                        List.not_mem_nil, or_false] at he
                      rcases he with he | he <;> subst he <;> rfl
                    · simp only [runPrice, hlp, hs, hip, hp, hlt, if_false,
                        Bool.false_eq_true, List.cons_append, List.nil_append,
                        List.mem_cons] at he
                      rcases he with he | he | he
                      · subst he; rfl
                      · subst he; rfl
                      · exact ih _ e he

/-- The price cycle never emits a price-drop event either: the dispatch
raises before any notification happens. -/
lemma runPrice_no_price_drop_events (scrape : String → Option ProductInfo)
    (persistFails : Nat → Bool) (now : Nat) :
    ∀ (ps : List Product) (db : DBState),
      ∀ e ∈ (runPrice scrape persistFails now ps db).events,
        isPriceDropEvent e = false := by
  intro ps
  induction ps with
  | nil => intro db e he; simp [runPrice] at he
  | cons p rest ih =>
      intro db e he
      cases hlp : p.last_price with
      | none =>
          simp only [runPrice, hlp] at he
          exact ih db e he
      | some oldP =>
          cases hs : scrape p.url with
          | none =>
              simp only [runPrice, hlp, hs, List.mem_cons] at he
              rcases he with he | he
              · subst he; rfl
              · exact ih db e he
          | some info =>
              cases hip : info.price with
              | none =>
                  simp only [runPrice, hlp, hs, hip, List.mem_cons] at he
                  rcases he with he | he
                  · subst he; rfl
                  · exact ih db e he
              | some newP =>
                  by_cases hp : persistFails p.id
                  · simp only [runPrice, hlp, hs, hip, hp, if_true, List.mem_singleton] at he
                    subst he; rfl
                  · by_cases hlt : newP < oldP
                    · simp only [runPrice, hlp, hs, hip, hp, hlt, if_true, if_false,
                        Bool.false_eq_true, List.mem_cons, List.mem_singleton,
                        List.not_mem_nil, or_false] at he
                      rcases he with he | he <;> subst he <;> rfl
                    · simp only [runPrice, hlp, hs, hip, hp, hlt, if_false,
                        Bool.false_eq_true, List.cons_append, List.nil_append,
                        List.mem_cons] at he
                      rcases he with he | he | he
                      · subst he; rfl
                      · subst he; rfl
                      · exact ih _ e he

lemma Json.get_obj (fields : List (String × Json)) (key : String) (d : Json) :
    Json.get (Json.obj fields) key d
      = Except.ok ((Json.lookupField fields key).getD d) := by
  simp only [Json.get]
  cases Json.lookupField fields key <;> rfl

/-- The inner item loop of `_extract_json_ld` selects nothing (and raises
nothing) on a list of dicts none of whose types match. -/
lemma firstTypedItem_of_no_match (typeOk : Json → Bool) :
    ∀ items : List Json, items.all (dictNoMatch typeOk) = true →
      firstTypedItem typeOk items = Except.ok none := by
  intro items
  induction items with
  | nil => intro h; rfl
  | cons item rest ih =>
      intro h
      rw [List.all_cons, Bool.and_eq_true] at h
      obtain ⟨h1, h2⟩ := h
      cases item with
      | obj fields =>
          have h1' : typeOk ((Json.lookupField fields "@type").getD Json.null) = false := by
            simpa [dictNoMatch] using h1
          simp [firstTypedItem, Json.getNone, Json.get_obj, h1', ih h2,
            bind, Except.bind]
      | null => simp [dictNoMatch] at h1
      | str s => simp [dictNoMatch] at h1
      | num q => simp [dictNoMatch] at h1
      | bool b => simp [dictNoMatch] at h1
      | arr xs => simp [dictNoMatch] at h1

/-- When every script is in the harmless class, `_extract_json_ld`
completes without raising and selects no block. -/
lemma extract_json_ld_of_no_block (typeOk : Json → Bool) :
    ∀ scripts : List (Option Json),
      scripts.all (scriptYieldsNoBlock typeOk) = true →
      extract_json_ld typeOk scripts = Except.ok none := by
  intro scripts
  induction scripts with
  | nil => intro h; rfl
  | cons sc rest ih =>
      intro h
      rw [List.all_cons, Bool.and_eq_true] at h
      obtain ⟨h1, h2⟩ := h
      cases sc with
      | none => simpa [extract_json_ld] using ih h2
      | some data =>
          cases data with
          | obj fields =>
              have h1' : typeOk ((Json.lookupField fields "@type").getD Json.null) = false := by
                simpa [scriptYieldsNoBlock, dictNoMatch] using h1
              simp [extract_json_ld, Json.getNone, Json.get_obj, h1', ih h2,
                bind, Except.bind]
          | arr items =>
              have h1' : items.all (dictNoMatch typeOk) = true := by
                simpa [scriptYieldsNoBlock] using h1
              simp [extract_json_ld, firstTypedItem_of_no_match typeOk items h1', ih h2,
                bind, Except.bind]
          | null => simp [scriptYieldsNoBlock, dictNoMatch] at h1
          | str s => simp [scriptYieldsNoBlock, dictNoMatch] at h1
          | num q => simp [scriptYieldsNoBlock, dictNoMatch] at h1
          | bool b => simp [scriptYieldsNoBlock, dictNoMatch] at h1

lemma optTruthy_none : optTruthy none = false := rfl

lemma optTruthy_some (j : Json) : optTruthy (some j) = j.truthy := rfl

lemma statusOf_eq_available_iff (info : ProductInfo) :
    statusOf info = "available" ↔ info.available = true := by
  cases h : info.available <;> simp [statusOf, h]

lemma rowUpdate_last_status (s : String) (pr : Option ℚ) (nm : Option Json)
    (now : Nat) (p : Product) : (rowUpdate s pr nm now p).last_status = some s := by
  unfold rowUpdate; split <;> rfl

lemma rowUpdate_last_price (s : String) (pr : Option ℚ) (nm : Option Json)
    (now : Nat) (p : Product) : (rowUpdate s pr nm now p).last_price = pr := by
  unfold rowUpdate; split <;> rfl

lemma rowUpdate_url (s : String) (pr : Option ℚ) (nm : Option Json)
    (now : Nat) (p : Product) : (rowUpdate s pr nm now p).url = p.url := by
  unfold rowUpdate; split <;> rfl

lemma rowUpdate_id (s : String) (pr : Option ℚ) (nm : Option Json)
    (now : Nat) (p : Product) : (rowUpdate s pr nm now p).id = p.id := by
  unfold rowUpdate; split <;> rfl

lemma rowUpdate_name (s : String) (pr : Option ℚ) (nm : Option Json)
    (now : Nat) (p : Product) :
    (rowUpdate s pr nm now p).name = if optTruthy nm then nm else p.name := by
  unfold rowUpdate; split <;> simp_all

/-- One-product availability cycle, successful scrape, successful write. -/
lemma runAvail_singleton_some (scrape : String → Option ProductInfo)
    (persistFails : Nat → Bool) (notifyOk : ProductInfo → Bool) (now : Nat)
    (p : Product) (info : ProductInfo) (db : DBState)
    (hscr : scrape p.url = some info) (hpf : persistFails p.id = false) :
    runAvail scrape persistFails notifyOk now [p] db =
      { db := update_product_status db p.id (statusOf info) info.price (nameArgOf p info) now,
        events :=
          [Event.check p.url, Event.persist p.id (statusOf info) info.price (nameArgOf p info)] ++
            (if statusOf info = "available" ∧ p.last_status ≠ some "available" then
              [Event.notifyAvailable info (notifyOk info)] else []),
        aborted := none } := by
  simp [runAvail, hscr, hpf]

/-- One-product price cycle, baseline present, scrape and price present,
successful write: the write always commits, the trace is always
`check` then `persist`, and on a strict drop the cycle ends with the
`AttributeError` from the undefined `notify_price_drop`. -/
lemma runPrice_singleton_some (scrape : String → Option ProductInfo)
    (persistFails : Nat → Bool) (now : Nat)
    (p : Product) (info : ProductInfo) (oldP newP : ℚ) (db : DBState)
    (hold : p.last_price = some oldP) (hscr : scrape p.url = some info)
    (hnew : info.price = some newP) (hpf : persistFails p.id = false) :
    runPrice scrape persistFails now [p] db =
      { db := update_product_status db p.id (statusOf info) (some newP) (nameArgOf p info) now,
        events :=
          [Event.check p.url, Event.persist p.id (statusOf info) (some newP) (nameArgOf p info)],
        aborted := if newP < oldP then
          some (PriceAbort.notifyPriceDropMissing p.id oldP newP) else none } := by
  by_cases hlt : newP < oldP <;> simp [runPrice, hold, hscr, hnew, hpf, hlt]

/-- A one-product availability cycle over a product already recorded as
`"available"` emits no availability event, whatever the scrape returns. -/
lemma runAvail_singleton_no_event (scrape : String → Option ProductInfo)
    (persistFails : Nat → Bool) (notifyOk : ProductInfo → Bool) (now : Nat)
    (p : Product) (db : DBState) (hlast : p.last_status = some "available") :
    (runAvail scrape persistFails notifyOk now [p] db).events.countP
      isAvailabilityEvent = 0 := by
  cases hs : scrape p.url with
  | none => simp [runAvail, hs, isAvailabilityEvent]
  | some info =>
      by_cases hp : persistFails p.id
      · simp [runAvail, hs, hp, isAvailabilityEvent]
      · simp [runAvail, hs, hp, hlast, isAvailabilityEvent, List.countP_cons,
          List.countP_append]

/-- A singleton store after `update_product_status` on its own product. -/
lemma update_singleton (p : Product) (hist : List CheckHistory) (n : Nat)
    (s : String) (pr : Option ℚ) (nm : Option Json) (now : Nat) :
    update_product_status { products := [p], history := hist, nextId := n }
        p.id s pr nm now =
      { products := [rowUpdate s pr nm now p],
        history := hist ++ [{ product_id := p.id, status := s, price := pr, checked_at := now }],
        nextId := n } := by
  simp [update_product_status]

/-! ## Claim theorems -/

/-- C8: for every raw availability string, `_is_available` returns `true`
iff the lowercased string contains one of the six in-stock tokens as a
substring; in particular `"OutOfStock"` is unavailable and
`"LimitedAvailability"` is available. -/
theorem availability_token_normalization :
    (∀ s : String, is_available s = true ↔
      ∃ v ∈ in_stock_values, strIn v (pyLower s) = true)
    ∧ is_available "OutOfStock" = false
    ∧ is_available "LimitedAvailability" = true := by
  refine ⟨fun s => ?_, by decide, by decide⟩
  simp [is_available, List.any_eq_true]

/-- A document whose only structured-data block is a `Product` with an
`offers` field holding a string instead of an object. -/
def malformedOffersPage : Page :=
  { ldScripts := [some (Json.obj [("@type", Json.str "Product"),
                                  ("offers", Json.str "InStock")])],
    h1Text := none, priceClassText := none, addToCart := none,
    outOfStockText := false, productTitleText := none,
    offscreenPriceText := none, availabilityText := none,
    addToCartButtonById := false }

/-- C4 counterexample: on a document whose JSON-LD `Product` block has an
`offers` field that is a string, extraction raises (`offers.get("price")`
is an `AttributeError`) in both scrapers, instead of returning a
ProductRecord. -/
theorem malformed_offers_extraction_raises :
    uiScrapeDoc malformedOffersPage "u" = Except.error PyError.attributeError
    ∧ amazonScrapeDoc malformedOffersPage "u" = Except.error PyError.attributeError := by
  exact ⟨rfl, rfl⟩

/-- C4 amended: extraction never raises for documents whose ld+json
scripts each are unparsable JSON (caught), or parse to an object with a
non-matching product type, or to an array of such objects: the tier then
selects nothing and the DOM fallback always returns a record.  Malformed
structured data can raise in two places, and the exception escapes
extraction both times, to be caught per product by the orchestrator: a
parseable script whose top level is a scalar, or an array holding a
non-dict entry, raises inside `_extract_json_ld` itself with no block
selected, and a selected Product block with malformed interior (see the
counterexample) raises in the parse tier. -/
theorem extraction_total_without_structured_data (page : Page) (url : String)
    (hui : page.ldScripts.all (scriptYieldsNoBlock typeMatchesUI) = true)
    (ham : page.ldScripts.all (scriptYieldsNoBlock typeMatchesAmazon) = true) :
    (extract_json_ld typeMatchesUI page.ldScripts = Except.ok none
      ∧ uiScrapeDoc page url = Except.ok (uiParseHtml page url))
    ∧ (extract_json_ld typeMatchesAmazon page.ldScripts = Except.ok none
      ∧ amazonScrapeDoc page url = Except.ok (amazonParseHtml page url))
    ∧ extract_json_ld typeMatchesUI [some (Json.str "hi")]
        = Except.error PyError.attributeError
    ∧ extract_json_ld typeMatchesUI [some (Json.arr [Json.num 5])]
        = Except.error PyError.attributeError := by
  have hu := extract_json_ld_of_no_block typeMatchesUI page.ldScripts hui
  have ha := extract_json_ld_of_no_block typeMatchesAmazon page.ldScripts ham
  refine ⟨⟨hu, ?_⟩, ⟨ha, ?_⟩, rfl, rfl⟩
  · simp [uiScrapeDoc, hu]
  · simp [amazonScrapeDoc, ha]

/-- Witness for `extraction_total_without_structured_data` at a concrete
page: a document with one unparsable script and one JSON-LD block of a
non-product type. -/
def witnessPlainPage : Page :=
  { ldScripts := [none, some (Json.obj [("@type", Json.str "BreadcrumbList")])],
    h1Text := some "Router X", priceClassText := some "$99.00",
    addToCart := some false, outOfStockText := false,
    productTitleText := none, offscreenPriceText := none,
    availabilityText := none, addToCartButtonById := false }

theorem extraction_total_without_structured_data_witness :
    (witnessPlainPage.ldScripts.all (scriptYieldsNoBlock typeMatchesUI) = true
      ∧ witnessPlainPage.ldScripts.all (scriptYieldsNoBlock typeMatchesAmazon) = true)
    ∧ ((extract_json_ld typeMatchesUI witnessPlainPage.ldScripts = Except.ok none
        ∧ uiScrapeDoc witnessPlainPage "u" = Except.ok (uiParseHtml witnessPlainPage "u"))
      ∧ (extract_json_ld typeMatchesAmazon witnessPlainPage.ldScripts = Except.ok none
        ∧ amazonScrapeDoc witnessPlainPage "u"
            = Except.ok (amazonParseHtml witnessPlainPage "u"))
      ∧ extract_json_ld typeMatchesUI [some (Json.str "hi")]
          = Except.error PyError.attributeError
      ∧ extract_json_ld typeMatchesUI [some (Json.arr [Json.num 5])]
          = Except.error PyError.attributeError) :=
  ⟨⟨rfl, rfl⟩, extraction_total_without_structured_data witnessPlainPage "u" rfl rfl⟩

/-- A document with no structured data, no `h1`, but a price-classed
element and an enabled add-to-cart control. -/
def bareFallbackPage : Page :=
  { ldScripts := [], h1Text := none, priceClassText := some "$12.34",
    addToCart := some false, outOfStockText := false,
    productTitleText := none, offscreenPriceText := none,
    availabilityText := none, addToCartButtonById := false }

/-- C5 counterexample: when every tier fails to produce a usable name, the
returned record carries the sentinel name but is **not** forced to
`available = false` / `price = empty`: the DOM fallback here reports
`available = true` and a parsed price. -/
theorem sentinel_record_can_be_available :
    (uiScrapeDoc bareFallbackPage "u").toOption.map ProductInfo.name
      = some (Json.str "Unknown Product")
    ∧ (uiScrapeDoc bareFallbackPage "u").toOption.map ProductInfo.available = some true
    ∧ (uiScrapeDoc bareFallbackPage "u").toOption.map ProductInfo.price
      = some (some (mkRat 1234 100)) := by
  exact ⟨rfl, rfl, rfl⟩

/-- C5 amended: when every extraction tier is exhausted without a usable
name, extraction still returns a record (never an exception) carrying the
sentinel name `"Unknown Product"`; its `available` and `price` fields are
whatever the DOM-fallback heuristics observed, not necessarily
`false`/empty. -/
theorem exhausted_tiers_return_sentinel_record (page : Page) (url : String)
    (hui : extract_json_ld typeMatchesUI page.ldScripts = Except.ok none)
    (h1 : page.h1Text = none)
    (ham : extract_json_ld typeMatchesAmazon page.ldScripts = Except.ok none)
    (ht : page.productTitleText = none) :
    uiScrapeDoc page url = Except.ok (uiParseHtml page url)
    ∧ (uiParseHtml page url).name = Json.str "Unknown Product"
    ∧ amazonScrapeDoc page url = Except.ok (amazonParseHtml page url)
    ∧ (amazonParseHtml page url).name = Json.str "Unknown Product" := by
  refine ⟨?_, ?_, ?_, ?_⟩
  · simp [uiScrapeDoc, hui]
  · simp [uiParseHtml, h1]
  · simp [amazonScrapeDoc, ham]
  · simp [amazonParseHtml, ht]

/-- A product whose availability checks are disabled
(`check_availability = 0`). -/
def disabledAvailProduct : Product :=
  { id := 1, url := "u1", name := none, last_status := none, last_price := none,
    last_checked := none, check_availability := false, check_price := true }

/-- A product whose price checks are disabled (`check_price = 0`) but
which has a price baseline. -/
def disabledPriceProduct : Product :=
  { id := 2, url := "u2", name := none, last_status := some "available",
    last_price := some 10, last_checked := none, check_availability := true,
    check_price := false }

def scrapedInfo1 : ProductInfo :=
  { name := Json.str "Widget", price := some 5, available := true, url := "u1",
    currency := Json.str "USD" }

def scrapedInfo2 : ProductInfo :=
  { name := Json.str "Widget", price := some 8, available := true, url := "u2",
    currency := Json.str "USD" }

/-- An extraction result whose price does not undercut the baseline of
`disabledPriceProduct` (12 against 10). -/
def scrapedInfoRise : ProductInfo :=
  { name := Json.str "Widget", price := some 12, available := true, url := "u2",
    currency := Json.str "USD" }

/-- A product with a price baseline whose persisted status is not
`"available"`. -/
def staleProduct : Product :=
  { id := 3, url := "u3", name := none, last_status := some "unavailable",
    last_price := some 10, last_checked := none, check_availability := true,
    check_price := true }

def scrapedInfo3 : ProductInfo :=
  { name := Json.str "Widget", price := some 8, available := true, url := "u3",
    currency := Json.str "USD" }

/-- C3 (failing input): neither cycle consults the per-product enable
flags.  A product with `check_availability = false` is still fetched,
written and notified by the availability cycle, and a product with
`check_price = false` (with a baseline) is still fetched and written by
the price cycle — its persisted record, including `last_checked`, is
changed by the cadence that should have skipped it. -/
theorem check_flags_ignored :
    ((check_all_products [] (fun _ => some scrapedInfo1) (fun _ => false) (fun _ => true)
        { products := [disabledAvailProduct], history := [], nextId := 2 } 7).events
      = [Event.check "u1",
         Event.persist 1 "available" (some 5) (some (Json.str "Widget")),
         Event.notifyAvailable scrapedInfo1 true]
    ∧ (check_all_products [] (fun _ => some scrapedInfo1) (fun _ => false) (fun _ => true)
        { products := [disabledAvailProduct], history := [], nextId := 2 } 7).db.products
      = [{ id := 1, url := "u1", name := some (Json.str "Widget"),
           last_status := some "available", last_price := some 5,
           last_checked := some 7, check_availability := false, check_price := true }])
    ∧ ((check_all_prices (fun _ => some scrapedInfoRise) (fun _ => false)
        { products := [disabledPriceProduct], history := [], nextId := 3 } 9).events
      = [Event.check "u2",
         Event.persist 2 "available" (some 12) (some (Json.str "Widget"))]
    ∧ (check_all_prices (fun _ => some scrapedInfoRise) (fun _ => false)
        { products := [disabledPriceProduct], history := [], nextId := 3 } 9).db.products
      = [{ id := 2, url := "u2", name := some (Json.str "Widget"),
           last_status := some "available", last_price := some 12,
           last_checked := some 9, check_availability := true, check_price := false }]
    ∧ (check_all_prices (fun _ => some scrapedInfoRise) (fun _ => false)
        { products := [disabledPriceProduct], history := [], nextId := 3 } 9).aborted
      = none) :=
  ⟨⟨rfl, rfl⟩, rfl, rfl, rfl⟩

/-- C6 counterexample: a persistence error while writing the state of the
first product aborts the whole availability batch — the second product
is never checked (its `check` event is missing and its record untouched),
contradicting "errors for one product never abort the batch". -/
theorem persistence_error_aborts_batch :
    ((check_all_products []
        (fun u => if u = "u1" then some scrapedInfo1 else some scrapedInfo2)
        (fun i => i == 1) (fun _ => true)
        { products := [disabledAvailProduct, disabledPriceProduct],
          history := [], nextId := 3 } 7).events
      = [Event.check "u1"])
    ∧ ((check_all_products []
        (fun u => if u = "u1" then some scrapedInfo1 else some scrapedInfo2)
        (fun i => i == 1) (fun _ => true)
        { products := [disabledAvailProduct, disabledPriceProduct],
          history := [], nextId := 3 } 7).aborted = some 1)
    ∧ ((check_all_products []
        (fun u => if u = "u1" then some scrapedInfo1 else some scrapedInfo2)
        (fun i => i == 1) (fun _ => true)
        { products := [disabledAvailProduct, disabledPriceProduct],
          history := [], nextId := 3 } 7).db.products
      = [disabledAvailProduct, disabledPriceProduct]) :=
  ⟨rfl, rfl, rfl⟩

/-- C6 amended: a *scrape-level* failure (transport error or no matching
scraper, i.e. `check_product` returns `None`) is isolated: the rest of
the batch still runs, and the persisted record of the failed product —
including its `last_checked` timestamp — is unchanged.  A persistence
error, by contrast, aborts the remainder of the batch (see the
counterexample). -/
theorem scrape_failure_isolated (scrape : String → Option ProductInfo)
    (persistFails : Nat → Bool) (notifyOk : ProductInfo → Bool)
    (p q : Product) (info : ProductInfo) (hist : List CheckHistory) (n now : Nat)
    (hp : scrape p.url = none) (hq : scrape q.url = some info)
    (hid : p.id ≠ q.id) (hpfq : persistFails q.id = false) :
    (check_all_products [] scrape persistFails notifyOk
        { products := [p, q], history := hist, nextId := n } now).events
      = Event.check p.url :: stepAvailEvents scrape notifyOk q
    ∧ (check_all_products [] scrape persistFails notifyOk
        { products := [p, q], history := hist, nextId := n } now).db.products
      = [p, rowUpdate (statusOf info) info.price (nameArgOf q info) now q]
    ∧ (check_all_products [] scrape persistFails notifyOk
        { products := [p, q], history := hist, nextId := n } now).aborted = none := by
  refine ⟨?_, ?_, ?_⟩ <;>
    simp [check_all_products, seedConfig, runAvail, hp, hq, hpfq,
      stepAvailEvents, update_product_status, hid]

theorem scrape_failure_isolated_witness :
    ((fun u => if u = "u2" then some scrapedInfo2 else none) disabledAvailProduct.url = none
      ∧ (fun u => if u = "u2" then some scrapedInfo2 else none) disabledPriceProduct.url
        = some scrapedInfo2
      ∧ disabledAvailProduct.id ≠ disabledPriceProduct.id)
    ∧ ((check_all_products [] (fun u => if u = "u2" then some scrapedInfo2 else none)
          (fun _ => false) (fun _ => true)
          { products := [disabledAvailProduct, disabledPriceProduct],
            history := [], nextId := 3 } 9).events
        = Event.check disabledAvailProduct.url ::
            stepAvailEvents (fun u => if u = "u2" then some scrapedInfo2 else none)
              (fun _ => true) disabledPriceProduct
      ∧ (check_all_products [] (fun u => if u = "u2" then some scrapedInfo2 else none)
          (fun _ => false) (fun _ => true)
          { products := [disabledAvailProduct, disabledPriceProduct],
            history := [], nextId := 3 } 9).db.products
        = [disabledAvailProduct,
           rowUpdate (statusOf scrapedInfo2) scrapedInfo2.price
             (nameArgOf disabledPriceProduct scrapedInfo2) 9 disabledPriceProduct]
      ∧ (check_all_products [] (fun u => if u = "u2" then some scrapedInfo2 else none)
          (fun _ => false) (fun _ => true)
          { products := [disabledAvailProduct, disabledPriceProduct],
            history := [], nextId := 3 } 9).aborted = none) :=
  ⟨⟨rfl, rfl, by decide⟩,
    scrape_failure_isolated (fun u => if u = "u2" then some scrapedInfo2 else none)
      (fun _ => false) (fun _ => true) disabledAvailProduct disabledPriceProduct
      scrapedInfo2 [] 3 9 rfl rfl (by decide) rfl⟩

/-- A tracked product with no user-supplied name. -/
def unnamedProduct : Product :=
  { id := 1, url := "u1", name := none, last_status := none, last_price := none,
    last_checked := none, check_availability := true, check_price := true }

/-- An extraction result whose reported name is the empty string. -/
def emptyNameInfo : ProductInfo :=
  { name := Json.str "", price := some 5, available := true, url := "u1",
    currency := Json.str "USD" }

/-- C9 counterexample: a successful check whose extracted name is the
empty string does *not* write the extracted name into a nameless
persisted state of a nameless product — the write happens (see the `persist` event
carrying the extracted name) but `update_product_status`'s `if name:`
drops the falsy string, so the stored name stays `NULL`. -/
theorem empty_extracted_name_not_written :
    ((check_all_products [] (fun _ => some emptyNameInfo) (fun _ => false) (fun _ => true)
        { products := [unnamedProduct], history := [], nextId := 2 } 7).events
      = [Event.check "u1",
         Event.persist 1 "available" (some 5) (some (Json.str "")),
         Event.notifyAvailable emptyNameInfo true])
    ∧ ((check_all_products [] (fun _ => some emptyNameInfo) (fun _ => false) (fun _ => true)
        { products := [unnamedProduct], history := [], nextId := 2 } 7).db.products.map
          Product.name = [none]) :=
  ⟨rfl, rfl⟩

/-- C9 amended: a truthy (user-supplied, non-empty) stored name is never
overwritten by any successful check, whatever extraction reports; when no
truthy name is stored, the extracted name is written on every successful
check *provided it is itself truthy* — a falsy (empty) extracted name
leaves the stored name unchanged. -/
theorem name_policy_amended (scrape : String → Option ProductInfo)
    (persistFails : Nat → Bool) (notifyOk : ProductInfo → Bool)
    (p : Product) (info : ProductInfo) (hist : List CheckHistory) (n now : Nat)
    (hscr : scrape p.url = some info) (hpf : persistFails p.id = false) :
    (optTruthy p.name = true →
      (check_all_products [] scrape persistFails notifyOk
          { products := [p], history := hist, nextId := n } now).db.products.map
        Product.name = [p.name])
    ∧ (optTruthy p.name = false → info.name.truthy = true →
      (check_all_products [] scrape persistFails notifyOk
          { products := [p], history := hist, nextId := n } now).db.products.map
        Product.name = [some info.name])
    ∧ (optTruthy p.name = false → info.name.truthy = false →
      (check_all_products [] scrape persistFails notifyOk
          { products := [p], history := hist, nextId := n } now).db.products.map
        Product.name = [p.name]) := by
  have hrun := runAvail_singleton_some scrape persistFails notifyOk now p info
    { products := [p], history := hist, nextId := n } hscr hpf
  refine ⟨fun hname => ?_, fun hname hinfo => ?_, fun hname hinfo => ?_⟩
  · simp [check_all_products, seedConfig, hrun, update_singleton, rowUpdate_name,
      nameArgOf, hname, optTruthy_none, optTruthy_some]
  · simp [check_all_products, seedConfig, hrun, update_singleton, rowUpdate_name,
      nameArgOf, hname, optTruthy_none, optTruthy_some, hinfo]
  · simp [check_all_products, seedConfig, hrun, update_singleton, rowUpdate_name,
      nameArgOf, hname, optTruthy_none, optTruthy_some, hinfo]

theorem name_policy_amended_witness :
    ((fun _ : String => some scrapedInfo1) unnamedProduct.url = some scrapedInfo1)
    ∧ ((optTruthy unnamedProduct.name = true →
        (check_all_products [] (fun _ => some scrapedInfo1) (fun _ => false) (fun _ => true)
            { products := [unnamedProduct], history := [], nextId := 2 } 7).db.products.map
          Product.name = [unnamedProduct.name])
      ∧ (optTruthy unnamedProduct.name = false → scrapedInfo1.name.truthy = true →
        (check_all_products [] (fun _ => some scrapedInfo1) (fun _ => false) (fun _ => true)
            { products := [unnamedProduct], history := [], nextId := 2 } 7).db.products.map
          Product.name = [some scrapedInfo1.name])
      ∧ (optTruthy unnamedProduct.name = false → scrapedInfo1.name.truthy = false →
        (check_all_products [] (fun _ => some scrapedInfo1) (fun _ => false) (fun _ => true)
            { products := [unnamedProduct], history := [], nextId := 2 } 7).db.products.map
          Product.name = [unnamedProduct.name])) :=
  ⟨rfl, name_policy_amended (fun _ => some scrapedInfo1) (fun _ => false) (fun _ => true)
    unnamedProduct scrapedInfo1 [] 2 7 rfl rfl⟩

theorem exhausted_tiers_return_sentinel_record_witness :
    (extract_json_ld typeMatchesUI bareFallbackPage.ldScripts = Except.ok none
      ∧ bareFallbackPage.h1Text = none
      ∧ extract_json_ld typeMatchesAmazon bareFallbackPage.ldScripts = Except.ok none
      ∧ bareFallbackPage.productTitleText = none)
    ∧ (uiScrapeDoc bareFallbackPage "u" = Except.ok (uiParseHtml bareFallbackPage "u")
      ∧ (uiParseHtml bareFallbackPage "u").name = Json.str "Unknown Product"
      ∧ amazonScrapeDoc bareFallbackPage "u" = Except.ok (amazonParseHtml bareFallbackPage "u")
      ∧ (amazonParseHtml bareFallbackPage "u").name = Json.str "Unknown Product") :=
  ⟨⟨rfl, rfl, rfl, rfl⟩,
    exhausted_tiers_return_sentinel_record bareFallbackPage "u" rfl rfl rfl rfl⟩

/-- C7 counterexample: in the price cycle, a notification failure is not
reported as a return value.  On the first detected price drop the dispatch
itself raises (`notify_price_drop` is undefined on `PushoverNotifier`), so
the cycle aborts with that error and the second eligible product is never
checked; only the already-committed persistence write for the first
product survives. -/
theorem price_notify_crash_not_return_value :
    ((check_all_prices (fun u => if u = "u3" then some scrapedInfo3 else some scrapedInfo2)
        (fun _ => false)
        { products := [staleProduct, disabledPriceProduct], history := [], nextId := 4 }
        9).events
      = [Event.check "u3", Event.persist 3 "available" (some 8) (some (Json.str "Widget"))])
    ∧ ((check_all_prices (fun u => if u = "u3" then some scrapedInfo3 else some scrapedInfo2)
        (fun _ => false)
        { products := [staleProduct, disabledPriceProduct], history := [], nextId := 4 }
        9).aborted = some (PriceAbort.notifyPriceDropMissing 3 10 8))
    ∧ ((check_all_prices (fun u => if u = "u3" then some scrapedInfo3 else some scrapedInfo2)
        (fun _ => false)
        { products := [staleProduct, disabledPriceProduct], history := [], nextId := 4 }
        9).db.products.map Product.last_price = [some 8, some 10]) :=
  ⟨rfl, rfl, rfl⟩

/-- C7 amended: per product and per cycle, extraction precedes the
persistence write and the write precedes the notification dispatch.  In
the availability cycle a notification failure is a returned Boolean that
never influences the final persisted state.  In the price cycle the
dispatch of a price-drop notification itself raises — `notify_price_drop`
is undefined on the notifier — after the write has committed: the failure
does not revert that write, but it is an exception that aborts the
remainder of the cycle rather than a reported return value. -/
theorem per_product_operation_order (scrape : String → Option ProductInfo)
    (persistFails : Nat → Bool) (notifyOk : ProductInfo → Bool)
    (p : Product) (info : ProductInfo) (oldP newP : ℚ)
    (hist : List CheckHistory) (n now : Nat)
    (hscr : scrape p.url = some info)
    (hold : p.last_price = some oldP) (hnew : info.price = some newP)
    (hpf : persistFails p.id = false) :
    (stepAvailEvents scrape notifyOk p
      = [Event.check p.url,
         Event.persist p.id (statusOf info) info.price (nameArgOf p info)] ++
        (if statusOf info = "available" ∧ p.last_status ≠ some "available" then
          [Event.notifyAvailable info (notifyOk info)] else []))
    ∧ (∀ (ok1 ok2 : ProductInfo → Bool) (config : List (String × Option Json))
        (db : DBState) (now1 : Nat),
        (check_all_products config scrape persistFails ok1 db now1).db
          = (check_all_products config scrape persistFails ok2 db now1).db)
    ∧ (check_all_prices scrape persistFails
          { products := [p], history := hist, nextId := n } now
        = { db := update_product_status { products := [p], history := hist, nextId := n }
              p.id (statusOf info) (some newP) (nameArgOf p info) now,
            events := [Event.check p.url,
              Event.persist p.id (statusOf info) (some newP) (nameArgOf p info)],
            aborted := if newP < oldP then
              some (PriceAbort.notifyPriceDropMissing p.id oldP newP) else none }) := by
  refine ⟨?_, ?_, ?_⟩
  · simp [stepAvailEvents, hscr]
  · intro ok1 ok2 config db now1
    simp only [check_all_products]
    exact runAvail_db_notify_independent scrape persistFails ok1 ok2 now1 _ _
  · simp only [check_all_prices]
    exact runPrice_singleton_some scrape persistFails now p info oldP newP _ hold hscr hnew hpf

theorem per_product_operation_order_witness :
    ((fun _ : String => some scrapedInfo3) staleProduct.url = some scrapedInfo3
      ∧ staleProduct.last_price = some 10
      ∧ scrapedInfo3.price = some 8)
    ∧ ((stepAvailEvents (fun _ => some scrapedInfo3) (fun _ => false) staleProduct
        = [Event.check staleProduct.url,
           Event.persist staleProduct.id (statusOf scrapedInfo3) scrapedInfo3.price
             (nameArgOf staleProduct scrapedInfo3)] ++
          (if statusOf scrapedInfo3 = "available"
              ∧ staleProduct.last_status ≠ some "available" then
            [Event.notifyAvailable scrapedInfo3 false] else []))
      ∧ (∀ (ok1 ok2 : ProductInfo → Bool) (config : List (String × Option Json))
          (db : DBState) (now1 : Nat),
          (check_all_products config (fun _ => some scrapedInfo3) (fun _ => false) ok1 db now1).db
            = (check_all_products config (fun _ => some scrapedInfo3) (fun _ => false) ok2 db now1).db)
      ∧ (check_all_prices (fun _ => some scrapedInfo3) (fun _ => false)
            { products := [staleProduct], history := [], nextId := 4 } 9
          = { db := update_product_status { products := [staleProduct], history := [], nextId := 4 }
                staleProduct.id (statusOf scrapedInfo3) (some 8)
                (nameArgOf staleProduct scrapedInfo3) 9,
              events := [Event.check staleProduct.url,
                Event.persist staleProduct.id (statusOf scrapedInfo3) (some 8)
                  (nameArgOf staleProduct scrapedInfo3)],
              aborted := if (8 : ℚ) < 10 then
                some (PriceAbort.notifyPriceDropMissing staleProduct.id 10 8) else none })) :=
  ⟨⟨rfl, rfl, rfl⟩,
    per_product_operation_order (fun _ => some scrapedInfo3) (fun _ => false)
      (fun _ => false) staleProduct scrapedInfo3 10 8 [] 4 9 rfl rfl rfl rfl⟩

/-- C1: availability notification is edge-triggered.  For a product whose
extraction succeeds, the availability event is emitted iff the newly
computed status is `"available"` and the persisted prior status (read
from the snapshot taken at the start of the cycle) is not; the cycle's
trace is assembled product by product from that snapshot; on the
transition exactly one event fires, and a following cycle that observes
`"available"` again — reading the now-persisted `lastStatus` — fires
none. -/
theorem availability_event_edge_triggered (scrape : String → Option ProductInfo)
    (persistFails : Nat → Bool) (notifyOk : ProductInfo → Bool)
    (p : Product) (info : ProductInfo) (hist : List CheckHistory) (n now : Nat)
    (hscr : scrape p.url = some info) (hpf : persistFails p.id = false) :
    ((Event.notifyAvailable info (notifyOk info) ∈ stepAvailEvents scrape notifyOk p)
      ↔ (info.available = true ∧ p.last_status ≠ some "available"))
    ∧ (∀ (config : List (String × Option Json)) (db : DBState),
        (∀ i, persistFails i = false) →
        (check_all_products config scrape persistFails notifyOk db now).events
          = ((seedConfig config db).products).flatMap (stepAvailEvents scrape notifyOk))
    ∧ (info.available = true → p.last_status ≠ some "available" →
        ((check_all_products [] scrape persistFails notifyOk
            { products := [p], history := hist, nextId := n } now).events.countP
          isAvailabilityEvent = 1)
        ∧ (∀ (scrape2 : String → Option ProductInfo) (notifyOk2 : ProductInfo → Bool)
            (info2 : ProductInfo) (now2 : Nat),
            scrape2 p.url = some info2 → info2.available = true →
            (check_all_products [] scrape2 persistFails notifyOk2
                (check_all_products [] scrape persistFails notifyOk
                  { products := [p], history := hist, nextId := n } now).db now2).events.countP
              isAvailabilityEvent = 0)) := by
  have hrun := runAvail_singleton_some scrape persistFails notifyOk now p info
    { products := [p], history := hist, nextId := n } hscr hpf
  refine ⟨?_, ?_, fun hav hprev => ⟨?_, ?_⟩⟩
  · simp only [stepAvailEvents, hscr]
    by_cases hav : info.available
    · by_cases hprev : p.last_status = some "available"
      · simp [statusOf, hav, hprev]
      · simp [statusOf, hav, hprev]
    · simp [statusOf, hav]
  · intro config db hall
    simp only [check_all_products]
    exact runAvail_events_decomp scrape persistFails notifyOk now hall _ _
  · simp [check_all_products, seedConfig, hrun, statusOf, hav, hprev,
      isAvailabilityEvent, List.countP_cons, List.countP_append]
  · intro scrape2 notifyOk2 info2 now2 hscr2 hav2
    have hdb : (check_all_products [] scrape persistFails notifyOk
        { products := [p], history := hist, nextId := n } now).db
        = { products := [rowUpdate (statusOf info) info.price (nameArgOf p info) now p],
            history := hist ++ [⟨p.id, statusOf info, info.price, now⟩],
            nextId := n } := by
      simp [check_all_products, seedConfig, hrun, update_singleton]
    rw [hdb]
    simp only [check_all_products, seedConfig, List.foldl]
    exact runAvail_singleton_no_event scrape2 persistFails notifyOk2 now2 _ _
      (by rw [rowUpdate_last_status]; simp [statusOf, hav])

theorem availability_event_edge_triggered_witness :
    ((fun _ : String => some scrapedInfo1) unnamedProduct.url = some scrapedInfo1
      ∧ (fun _ : Nat => false) unnamedProduct.id = false)
    ∧ (((Event.notifyAvailable scrapedInfo1 true
          ∈ stepAvailEvents (fun _ => some scrapedInfo1) (fun _ => true) unnamedProduct)
        ↔ (scrapedInfo1.available = true ∧ unnamedProduct.last_status ≠ some "available"))
      ∧ (∀ (config : List (String × Option Json)) (db : DBState),
          (∀ i, (fun _ : Nat => false) i = false) →
          (check_all_products config (fun _ => some scrapedInfo1) (fun _ => false)
              (fun _ => true) db 7).events
            = ((seedConfig config db).products).flatMap
                (stepAvailEvents (fun _ => some scrapedInfo1) (fun _ => true)))
      ∧ (scrapedInfo1.available = true → unnamedProduct.last_status ≠ some "available" →
          ((check_all_products [] (fun _ => some scrapedInfo1) (fun _ => false)
              (fun _ => true) { products := [unnamedProduct], history := [], nextId := 2 }
              7).events.countP isAvailabilityEvent = 1)
          ∧ (∀ (scrape2 : String → Option ProductInfo) (notifyOk2 : ProductInfo → Bool)
              (info2 : ProductInfo) (now2 : Nat),
              scrape2 unnamedProduct.url = some info2 → info2.available = true →
              (check_all_products [] scrape2 (fun _ => false) notifyOk2
                  (check_all_products [] (fun _ => some scrapedInfo1) (fun _ => false)
                    (fun _ => true) { products := [unnamedProduct], history := [], nextId := 2 }
                    7).db now2).events.countP isAvailabilityEvent = 0))) :=
  ⟨⟨rfl, rfl⟩, availability_event_edge_triggered (fun _ => some scrapedInfo1) (fun _ => false)
    (fun _ => true) unnamedProduct scrapedInfo1 [] 2 7 rfl rfl⟩

/-- C2 (failing input): the price-drop notification can never be
dispatched.  For an eligible product (baseline 10) whose extraction
yields the strictly lower price 8, the code looks up
`self.notifier.notify_price_drop` — undefined on `PushoverNotifier` — and
raises `AttributeError` right after the committed write: no price-drop
event carrying `(10, 8)` is emitted and the rest of the price cycle
aborts.  The non-drop half of the claim does hold: with an observed price
of 12 against the same baseline no event fires, the baseline is
overwritten and the cycle continues.  And no run of the price cycle, on
any input, ever contains a price-drop event. -/
theorem price_drop_dispatch_crashes :
    ((check_all_prices (fun _ => some scrapedInfo3) (fun _ => false)
        { products := [staleProduct], history := [], nextId := 4 } 9).events
      = [Event.check "u3", Event.persist 3 "available" (some 8) (some (Json.str "Widget"))])
    ∧ ((check_all_prices (fun _ => some scrapedInfo3) (fun _ => false)
        { products := [staleProduct], history := [], nextId := 4 } 9).aborted
      = some (PriceAbort.notifyPriceDropMissing 3 10 8))
    ∧ ((check_all_prices (fun _ => some scrapedInfo3) (fun _ => false)
        { products := [staleProduct], history := [], nextId := 4 } 9).db.products.map
        Product.last_price = [some 8])
    ∧ ((check_all_prices (fun _ => some scrapedInfoRise) (fun _ => false)
        { products := [disabledPriceProduct], history := [], nextId := 3 } 9).aborted
      = none)
    ∧ ((check_all_prices (fun _ => some scrapedInfoRise) (fun _ => false)
        { products := [disabledPriceProduct], history := [], nextId := 3 } 9).db.products.map
        Product.last_price = [some 12])
    ∧ (∀ (scrape : String → Option ProductInfo) (persistFails : Nat → Bool)
        (db : DBState) (now : Nat),
        ∀ e ∈ (check_all_prices scrape persistFails db now).events,
          isPriceDropEvent e = false) := by
  refine ⟨rfl, rfl, rfl, rfl, rfl, ?_⟩
  intro scrape persistFails db now
  simp only [check_all_prices]
  exact runPrice_no_price_drop_events scrape persistFails now _ _

/-- C10: the price cycle never emits an availability event, yet it
overwrites the persisted `last_status` with the newly observed status; a
non-available → available transition first observed during a price cycle
therefore produces no availability notification, and the following
availability cycle — reading the persisted `last_status = "available"` —
does not fire either. -/
theorem price_cycle_swallows_availability_edge (scrape : String → Option ProductInfo)
    (persistFails : Nat → Bool)
    (p : Product) (info : ProductInfo) (oldP newP : ℚ)
    (hist : List CheckHistory) (n now : Nat)
    (hold : p.last_price = some oldP) (hprev : p.last_status ≠ some "available")
    (hscr : scrape p.url = some info) (hav : info.available = true)
    (hnew : info.price = some newP) (hpf : persistFails p.id = false) :
    (∀ (db : DBState) (now1 : Nat),
      ∀ e ∈ (check_all_prices scrape persistFails db now1).events,
        isAvailabilityEvent e = false)
    ∧ ((check_all_prices scrape persistFails
          { products := [p], history := hist, nextId := n } now).db.products.map
        Product.last_status = [some "available"])
    ∧ (∀ (scrape2 : String → Option ProductInfo) (notifyOk2 : ProductInfo → Bool) (now2 : Nat),
        (check_all_products [] scrape2 persistFails notifyOk2
            (check_all_prices scrape persistFails
              { products := [p], history := hist, nextId := n } now).db now2).events.countP
          isAvailabilityEvent = 0) := by
  have hrun := runPrice_singleton_some scrape persistFails now p info oldP newP
    { products := [p], history := hist, nextId := n } hold hscr hnew hpf
  have hdb : (check_all_prices scrape persistFails
      { products := [p], history := hist, nextId := n } now).db
      = { products := [rowUpdate (statusOf info) (some newP) (nameArgOf p info) now p],
          history := hist ++ [⟨p.id, statusOf info, some newP, now⟩],
          nextId := n } := by
    simp [check_all_prices, hrun, update_singleton]
  refine ⟨?_, ?_, ?_⟩
  · intro db now1
    simp only [check_all_prices]
    exact runPrice_no_availability_events scrape persistFails now1 _ _
  · rw [hdb]
    simp [rowUpdate_last_status, statusOf, hav]
  · intro scrape2 notifyOk2 now2
    rw [hdb]
    simp only [check_all_products, seedConfig, List.foldl]
    exact runAvail_singleton_no_event scrape2 persistFails notifyOk2 now2 _ _
      (by rw [rowUpdate_last_status]; simp [statusOf, hav])

theorem price_cycle_swallows_availability_edge_witness :
    (staleProduct.last_price = some 10
      ∧ staleProduct.last_status ≠ some "available"
      ∧ (fun _ : String => some scrapedInfo3) staleProduct.url = some scrapedInfo3
      ∧ scrapedInfo3.available = true
      ∧ scrapedInfo3.price = some 8)
    ∧ ((∀ (db : DBState) (now1 : Nat),
        ∀ e ∈ (check_all_prices (fun _ => some scrapedInfo3) (fun _ => false)
            db now1).events,
          isAvailabilityEvent e = false)
      ∧ ((check_all_prices (fun _ => some scrapedInfo3) (fun _ => false)
            { products := [staleProduct], history := [], nextId := 4 } 9).db.products.map
          Product.last_status = [some "available"])
      ∧ (∀ (scrape2 : String → Option ProductInfo) (notifyOk2 : ProductInfo → Bool) (now2 : Nat),
          (check_all_products [] scrape2 (fun _ => false) notifyOk2
              (check_all_prices (fun _ => some scrapedInfo3) (fun _ => false)
                { products := [staleProduct], history := [], nextId := 4 }
                9).db now2).events.countP isAvailabilityEvent = 0)) :=
  ⟨⟨rfl, by decide, rfl, rfl, rfl⟩,
    price_cycle_swallows_availability_edge (fun _ => some scrapedInfo3) (fun _ => false)
      staleProduct scrapedInfo3 10 8 [] 4 9 rfl (by decide) rfl rfl rfl rfl⟩

end PriceChecker
